import Mathlib

/-!
Verification of the resilient batched-fetch engine of `appvocai-acquire`
(package `appstorestream`), against its natural-language specification.

The development shallowly embeds the relevant Python source:

* `src/appstorestream/domain/request/appdata.py` — `RequestAppData`,
  `RequestAsyncAppData`, `RequestAppDataGen` (pagination / batch generation);
* `src/appstorestream/infra/web/asession.py` — `ASession.make_request`
  (the per-request attempt loop with throttling and exponential backoff)
  and `ASessionAppData.get` (batch execution and result aggregation).

Stateful Python objects become explicit state passing, iterator protocol
`__next__`/`StopIteration` becomes `Option`, and raised exceptions become an
explicit `Except`-style result constructor.
-/

/-- Value of a query-string parameter: the `params` dict of `RequestAppData`
maps string keys to either strings or integers. -/
inductive PVal
  | s (v : String)
  | n (v : Nat)
deriving DecidableEq, Repr

/-- A query-parameter dictionary, as the ordered key/value list the Python
dict literal in `RequestAppData.params` builds. -/
abbrev ParamsDict := List (String × PVal)

/-- A headers dictionary: header-name/value pairs. -/
abbrev HeadersDict := List (String × String)

/-- Modelled from the spec: class `BrowserHeaders`
(`appstorestream/infra/web/header.py`) is not under `src/`; the source
declares it only as the type of `RequestAppData.header_list` and calls
`next(...)` on it. The spec describes it as a "Browser header iterator" used
for "header/credential rotation", so it is modelled as an iterator over a
list of browser header dictionaries that returns the entry at its current
position (cycling) and advances the position on every `next` call. -/
structure BrowserHeaders where
  headers : List HeadersDict
  pos : Nat
deriving DecidableEq, Repr

/-- One step of the `BrowserHeaders` iterator: the headers dictionary at the
current position (modulo the list length, empty on an empty list) together
with the advanced iterator. -/
def BrowserHeaders.next (bh : BrowserHeaders) : HeadersDict × BrowserHeaders :=
  (bh.headers.getD (bh.pos % bh.headers.length) [], { bh with pos := bh.pos + 1 })

/-- Dataclass `RequestAppData` (`domain/request/appdata.py`, lines 30-73),
with the source's field defaults. `header_list` defaults in the source to a
single class-level `BrowserHeaders()` instance. -/
structure RequestAppData where
  genreId : Nat
  current_page : Nat
  media : String := "software"
  scheme : String := "https"
  host : String := "itunes.apple.com"
  term : String := "app"
  command : String := "search?"
  country : String := "us"
  lang : String := "en-us"
  explicit : String := "yes"
  limit : Nat := 200
  header_list : BrowserHeaders := { headers := [], pos := 0 }
deriving DecidableEq, Repr

/-- Property `RequestAppData.baseurl` (lines 53-55):
`f"{self.scheme}://{self.host}/{self.command}"`. -/
def RequestAppData.baseurl (r : RequestAppData) : String :=
  r.scheme ++ "://" ++ r.host ++ "/" ++ r.command

/-- Property `RequestAppData.params` (lines 61-73): the dict literal, in
source order. -/
def RequestAppData.params (r : RequestAppData) : ParamsDict :=
  [("media", .s r.media),
   ("genreId", .n r.genreId),
   ("term", .s r.term),
   ("country", .s r.country),
   ("lang", .s r.lang),
   ("explicit", .s r.explicit),
   ("limit", .n r.limit),
   ("offset", .n (r.current_page * r.limit))]

/-- Property `RequestAppData.headers` (lines 57-59): returns
`next(self.header_list)`. The iterator is stateful, so the accessor is
modelled state-passing: it yields the produced headers dictionary together
with the request whose `header_list` field holds the advanced iterator. -/
def RequestAppData.headers (r : RequestAppData) : HeadersDict × RequestAppData :=
  (r.header_list.next.1, { r with header_list := r.header_list.next.2 })

/-- Dataclass `RequestAsyncAppData` (lines 77-79): a batch, i.e. an ordered
list of requests produced by one generation call. -/
structure RequestAsyncAppData where
  requests : List RequestAppData
deriving DecidableEq, Repr

/-- State of `RequestAppDataGen` (lines 83-166): the instance attributes set
in `__init__`. -/
structure RequestAppDataGen where
  category_id : Nat
  max_requests : Nat
  batch_size : Nat
  start_page : Nat
  current_page : Nat
  request_count : Nat
deriving DecidableEq, Repr

/-- `RequestAppDataGen.__init__` (lines 95-111): cursor starts at
`start_page`, issued-request count at 0. -/
def RequestAppDataGen.init (category_id max_requests batch_size start_page : Nat) :
    RequestAppDataGen :=
  { category_id := category_id
    max_requests := max_requests
    batch_size := batch_size
    start_page := start_page
    current_page := start_page
    request_count := 0 }

/-- Property `RequestAppDataGen.bookmark` (lines 113-115): the current
cursor. -/
def RequestAppDataGen.bookmark (g : RequestAppDataGen) : Nat :=
  g.current_page

/-- `RequestAppDataGen.__next__` (lines 134-166). `none` models raising
`StopIteration`. Otherwise the batch holds one `RequestAppData` per page in
`range(batch_start_page, batch_stop_page)` (the loop appends one request and
increments `_current_page` and `_request_count` per iteration, so the state
advances by `current_batch_size` in total). -/
def RequestAppDataGen.next (g : RequestAppDataGen) :
    Option (RequestAsyncAppData × RequestAppDataGen) :=
  if g.request_count ≥ g.max_requests then
    none
  else
    let requests_remaining := g.max_requests - g.request_count
    let current_batch_size := min g.batch_size requests_remaining
    let batch_start_page := g.current_page
    let requests := (List.range' batch_start_page current_batch_size).map
      (fun current_page => { genreId := g.category_id, current_page := current_page })
    some (⟨requests⟩,
      { g with
          current_page := g.current_page + current_batch_size
          request_count := g.request_count + current_batch_size })

/-- Driving the generator: up to `fuel` calls of `__next__`, collecting the
yielded batches, stopping early when `StopIteration` is raised. Returns the
batches and the final generator state. -/
def RequestAppDataGen.run : Nat → RequestAppDataGen → List RequestAsyncAppData × RequestAppDataGen
  | 0, g => ([], g)
  | fuel + 1, g =>
    match g.next with
    | none => ([], g)
    | some (b, g') =>
      let rest := RequestAppDataGen.run fuel g'
      (b :: rest.1, rest.2)

/-- Total number of requests contained in a list of batches. -/
def numRequests (bs : List RequestAsyncAppData) : Nat :=
  (bs.map (fun b => b.requests.length)).sum

/-- All page indices of a list of batches, in generation order. -/
def pagesOf (bs : List RequestAsyncAppData) : List Nat :=
  (bs.map (fun b => b.requests.map RequestAppData.current_page)).flatten

/-- C3: a `__next__` call signals exhaustion iff `max_requests -
request_count ≤ 0`; otherwise it yields exactly `min (batch_size)
(max_requests - request_count)` requests on consecutive pages starting at
the cursor and advances cursor and count by exactly that number. -/
theorem c3_next_spec (g : RequestAppDataGen) :
    (g.next = none ↔ g.max_requests - g.request_count = 0) ∧
    (∀ b g', g.next = some (b, g') →
      b.requests.length = min g.batch_size (g.max_requests - g.request_count) ∧
      b.requests.map RequestAppData.current_page =
        List.range' g.current_page (min g.batch_size (g.max_requests - g.request_count)) ∧
      g'.current_page = g.current_page + b.requests.length ∧
      g'.request_count = g.request_count + b.requests.length) := by
  unfold RequestAppDataGen.next
  by_cases h : g.request_count ≥ g.max_requests
  · simp only [if_pos h]
    refine ⟨⟨fun _ => by omega, fun _ => trivial⟩, ?_⟩
    intro b g' hbg'
    simp at hbg'
  · simp only [if_neg h]
    refine ⟨⟨fun hnone => by simp at hnone, fun h0 => absurd h0 (by omega)⟩, ?_⟩
    intro b g' hbg'
    injection hbg' with hpair
    injection hpair with hb hg'
    subst hb
    subst hg'
    have hc : (RequestAppData.current_page ∘ fun current_page =>
        ({ genreId := g.category_id, current_page := current_page } : RequestAppData)) =
        fun x => x := rfl
    refine ⟨by simp, ?_, by simp, by simp⟩
    rw [List.map_map, hc, List.map_id']

/-- Witness for C3 at a concrete generator state. -/
theorem c3_next_spec_witness :
    (RequestAppDataGen.init 6018 5 2 10).next =
      some (⟨[{ genreId := 6018, current_page := 10 }, { genreId := 6018, current_page := 11 }]⟩,
        { category_id := 6018, max_requests := 5, batch_size := 2, start_page := 10,
          current_page := 12, request_count := 2 }) ∧
    (2 : Nat) = min 2 (5 - 0) := by
  refine ⟨rfl, ?_⟩
  have h := (c3_next_spec (RequestAppDataGen.init 6018 5 2 10)).2
    ⟨[{ genreId := 6018, current_page := 10 }, { genreId := 6018, current_page := 11 }]⟩
    { category_id := 6018, max_requests := 5, batch_size := 2, start_page := 10,
      current_page := 12, request_count := 2 } rfl
  exact h.1

/-- C8: the query parameters of every `RequestAppData` contain the
pagination offset `current_page * limit`, the category id `genreId`, the
locale fields `country` and `lang`, and the explicitness flag. -/
theorem c8_params_fields (r : RequestAppData) :
    r.params.lookup "offset" = some (.n (r.current_page * r.limit)) ∧
    r.params.lookup "genreId" = some (.n r.genreId) ∧
    r.params.lookup "country" = some (.s r.country) ∧
    r.params.lookup "lang" = some (.s r.lang) ∧
    r.params.lookup "explicit" = some (.s r.explicit) := by
  simp [RequestAppData.params, List.lookup]

/-- Auxiliary: `__next__` raises `StopIteration` exactly when the budget is
spent. -/
theorem RequestAppDataGen.next_none_iff (g : RequestAppDataGen) :
    g.next = none ↔ g.max_requests ≤ g.request_count := by
  unfold RequestAppDataGen.next
  by_cases h : g.request_count ≥ g.max_requests
  · rw [if_pos h]; simp; omega
  · rw [if_neg h]; simp; omega

/-- Auxiliary: the value produced by a yielding `__next__` call. -/
theorem RequestAppDataGen.next_some_eq (g : RequestAppDataGen)
    (h : ¬ g.request_count ≥ g.max_requests) :
    g.next = some (⟨(List.range' g.current_page
        (min g.batch_size (g.max_requests - g.request_count))).map
        (fun current_page => { genreId := g.category_id, current_page := current_page })⟩,
      { g with
          current_page := g.current_page + min g.batch_size (g.max_requests - g.request_count)
          request_count := g.request_count + min g.batch_size (g.max_requests - g.request_count) }) := by
  unfold RequestAppDataGen.next
  rw [if_neg h]

/-- Auxiliary: page projection of the requests built for one batch. -/
theorem batch_pages_eq (c p k : Nat) :
    ((List.range' p k).map
        (fun current_page => ({ genreId := c, current_page := current_page } : RequestAppData))).map
      RequestAppData.current_page = List.range' p k := by
  rw [List.map_map]
  have hc : (RequestAppData.current_page ∘ fun current_page =>
      ({ genreId := c, current_page := current_page } : RequestAppData)) = fun x => x := rfl
  rw [hc, List.map_id']

/-- Invariant of driving the generator: configuration fields are constant,
cursor and issued count advance together by the number of generated
requests, the generated pages are exactly the consecutive interval starting
at the initial cursor, and the issued count never exceeds the budget. -/
theorem RequestAppDataGen.run_inv (fuel : Nat) (g : RequestAppDataGen) :
    (RequestAppDataGen.run fuel g).2.category_id = g.category_id ∧
    (RequestAppDataGen.run fuel g).2.max_requests = g.max_requests ∧
    (RequestAppDataGen.run fuel g).2.batch_size = g.batch_size ∧
    (RequestAppDataGen.run fuel g).2.request_count =
      g.request_count + numRequests (RequestAppDataGen.run fuel g).1 ∧
    (RequestAppDataGen.run fuel g).2.current_page =
      g.current_page + numRequests (RequestAppDataGen.run fuel g).1 ∧
    pagesOf (RequestAppDataGen.run fuel g).1 =
      List.range' g.current_page (numRequests (RequestAppDataGen.run fuel g).1) ∧
    (g.request_count ≤ g.max_requests →
      (RequestAppDataGen.run fuel g).2.request_count ≤ g.max_requests) := by
  induction fuel generalizing g with
  | zero =>
    simp [RequestAppDataGen.run, numRequests, pagesOf]
  | succ fuel ih =>
    by_cases h : g.request_count ≥ g.max_requests
    · have hn : g.next = none := (RequestAppDataGen.next_none_iff g).2 h
      simp [RequestAppDataGen.run, hn, numRequests, pagesOf]
    · have hn := RequestAppDataGen.next_some_eq g h
      have hkle : min g.batch_size (g.max_requests - g.request_count) ≤
          g.max_requests - g.request_count := min_le_right _ _
      set k := min g.batch_size (g.max_requests - g.request_count) with hk
      set g' : RequestAppDataGen :=
        { g with
            current_page := g.current_page + k
            request_count := g.request_count + k } with hg'
      set b : RequestAsyncAppData :=
        ⟨(List.range' g.current_page k).map
          (fun current_page => { genreId := g.category_id, current_page := current_page })⟩ with hb
      have hg'cat : g'.category_id = g.category_id := by rw [hg']
      have hg'max : g'.max_requests = g.max_requests := by rw [hg']
      have hg'batch : g'.batch_size = g.batch_size := by rw [hg']
      have hg'cur : g'.current_page = g.current_page + k := by rw [hg']
      have hg'cnt : g'.request_count = g.request_count + k := by rw [hg']
      have hrun : RequestAppDataGen.run (fuel + 1) g =
          (b :: (RequestAppDataGen.run fuel g').1, (RequestAppDataGen.run fuel g').2) := by
        simp only [RequestAppDataGen.run, hn]
      have hnum : numRequests (b :: (RequestAppDataGen.run fuel g').1) =
          k + numRequests (RequestAppDataGen.run fuel g').1 := by
        rw [hb]; simp [numRequests]
      obtain ⟨ih1, ih2, ih3, ih4, ih5, ih6, ih7⟩ := ih g'
      refine ⟨?_, ?_, ?_, ?_, ?_, ?_, ?_⟩
      · rw [hrun]; dsimp only; rw [ih1, hg'cat]
      · rw [hrun]; dsimp only; rw [ih2, hg'max]
      · rw [hrun]; dsimp only; rw [ih3, hg'batch]
      · rw [hrun]; dsimp only; rw [hnum, ih4, hg'cnt]; omega
      · rw [hrun]; dsimp only; rw [hnum, ih5, hg'cur]; omega
      · rw [hrun]; dsimp only; rw [hnum]
        simp only [pagesOf, List.map_cons, List.flatten_cons]
        have hbpages : b.requests.map RequestAppData.current_page =
            List.range' g.current_page k := by
          rw [hb]; exact batch_pages_eq _ _ _
        have ih6' : (List.map (fun b => b.requests.map RequestAppData.current_page)
            (RequestAppDataGen.run fuel g').1).flatten =
            List.range' (g.current_page + k) (numRequests (RequestAppDataGen.run fuel g').1) := by
          have h6 := ih6
          simp only [pagesOf] at h6
          rw [h6]
        rw [hbpages, ih6', List.range'_append_1, Nat.add_comm]
      · intro _
        rw [hrun]; dsimp only
        have h7 := ih7 (by rw [hg'cnt, hg'max]; omega)
        rw [hg'max] at h7
        exact h7

/-- C4: over any bounded run of the generator the total number of generated
requests stays within `max_requests`; when the run ends with exhaustion
signalled, the total equals `max_requests` exactly; and no page index occurs
in more than one generated request. -/
theorem c4_budget_and_nodup (c M B p fuel : Nat) :
    numRequests (RequestAppDataGen.run fuel (RequestAppDataGen.init c M B p)).1 ≤ M ∧
    ((RequestAppDataGen.run fuel (RequestAppDataGen.init c M B p)).2.next = none →
      numRequests (RequestAppDataGen.run fuel (RequestAppDataGen.init c M B p)).1 = M) ∧
    (pagesOf (RequestAppDataGen.run fuel (RequestAppDataGen.init c M B p)).1).Nodup := by
  obtain ⟨-, i2, -, i4, -, i6, i7⟩ :=
    RequestAppDataGen.run_inv fuel (RequestAppDataGen.init c M B p)
  have hcnt : (RequestAppDataGen.init c M B p).request_count = 0 := rfl
  have hmax : (RequestAppDataGen.init c M B p).max_requests = M := rfl
  rw [hcnt] at i4
  rw [hmax] at i2
  have hle : (RequestAppDataGen.run fuel (RequestAppDataGen.init c M B p)).2.request_count ≤ M := by
    have := i7 (by rw [hcnt, hmax]; omega)
    rw [hmax] at this
    exact this
  refine ⟨by omega, ?_, ?_⟩
  · intro hnone
    have hexh := (RequestAppDataGen.next_none_iff _).1 hnone
    rw [i2] at hexh
    omega
  · rw [i6]
    exact List.nodup_range' _ _

/-- Witness for C4 at a concrete configuration that is run to exhaustion:
`max_requests = 5`, `batch_size = 2`, three calls. -/
theorem c4_budget_and_nodup_witness :
    numRequests (RequestAppDataGen.run 3 (RequestAppDataGen.init 6018 5 2 0)).1 = 5 ∧
    (pagesOf (RequestAppDataGen.run 3 (RequestAppDataGen.init 6018 5 2 0)).1).Nodup := by
  refine ⟨(c4_budget_and_nodup 6018 5 2 0 3).2.1 (by decide), (c4_budget_and_nodup 6018 5 2 0 3).2.2⟩

/-- C5: restarting with `start_page` equal to the first generator's bookmark
produces pages disjoint from every page the first generator issued. -/
theorem c5_restart_disjoint (c1 M1 B1 p1 fuel1 c2 M2 B2 fuel2 page : Nat)
    (h1 : page ∈ pagesOf (RequestAppDataGen.run fuel1 (RequestAppDataGen.init c1 M1 B1 p1)).1) :
    page ∉ pagesOf (RequestAppDataGen.run fuel2 (RequestAppDataGen.init c2 M2 B2
      (RequestAppDataGen.run fuel1 (RequestAppDataGen.init c1 M1 B1 p1)).2.bookmark)).1 := by
  obtain ⟨-, -, -, -, i5, i6, -⟩ :=
    RequestAppDataGen.run_inv fuel1 (RequestAppDataGen.init c1 M1 B1 p1)
  obtain ⟨-, -, -, -, -, j6, -⟩ :=
    RequestAppDataGen.run_inv fuel2 (RequestAppDataGen.init c2 M2 B2
      (RequestAppDataGen.run fuel1 (RequestAppDataGen.init c1 M1 B1 p1)).2.bookmark)
  rw [i6] at h1
  rw [j6]
  intro h2
  rw [List.mem_range'_1] at h1 h2
  have hcur : (RequestAppDataGen.init c2 M2 B2
      (RequestAppDataGen.run fuel1 (RequestAppDataGen.init c1 M1 B1 p1)).2.bookmark).current_page =
      (RequestAppDataGen.run fuel1 (RequestAppDataGen.init c1 M1 B1 p1)).2.current_page := rfl
  rw [hcur] at h2
  have hp1 : (RequestAppDataGen.init c1 M1 B1 p1).current_page = p1 := rfl
  rw [hp1] at h1 i5
  omega

/-- Witness for C5: a first run issuing pages 0..4 and a restart from its
bookmark; page 0 is not re-issued. -/
theorem c5_restart_disjoint_witness :
    (0 : Nat) ∉ pagesOf (RequestAppDataGen.run 3 (RequestAppDataGen.init 6018 7 3
      (RequestAppDataGen.run 3 (RequestAppDataGen.init 6018 5 2 0)).2.bookmark)).1 := by
  exact c5_restart_disjoint 6018 5 2 0 3 6018 7 3 3 0 (by decide)

/-- C10 counterexample: with `batch_size = 0` and budget remaining
(`request_count = 0 < 1 = max_requests`), `__next__` yields an empty batch
and leaves the generator state unchanged — so a batch yielded while budget
remains is empty, and exhaustion is never signalled. -/
theorem c10_counterexample :
    (RequestAppDataGen.init 6018 1 0 0).next = some (⟨[]⟩, RequestAppDataGen.init 6018 1 0 0) ∧
    (RequestAppDataGen.init 6018 1 0 0).request_count <
      (RequestAppDataGen.init 6018 1 0 0).max_requests := by
  exact ⟨rfl, by decide⟩

/-- Auxiliary for C10: with a positive batch size, enough fuel (the whole
budget) drives the generator to exhaustion. -/
theorem RequestAppDataGen.run_exhausts (fuel : Nat) : ∀ g : RequestAppDataGen,
    1 ≤ g.batch_size → g.max_requests - g.request_count ≤ fuel →
    (RequestAppDataGen.run fuel g).2.next = none := by
  induction fuel with
  | zero =>
    intro g hB hle
    show g.next = none
    rw [RequestAppDataGen.next_none_iff]
    omega
  | succ fuel ih =>
    intro g hB hle
    by_cases h : g.request_count ≥ g.max_requests
    · have hn : g.next = none := (RequestAppDataGen.next_none_iff g).2 h
      show (RequestAppDataGen.run (fuel + 1) g).2.next = none
      simp only [RequestAppDataGen.run, hn]
    · have hn := RequestAppDataGen.next_some_eq g h
      have hkge : 1 ≤ min g.batch_size (g.max_requests - g.request_count) :=
        le_min hB (by omega)
      simp only [RequestAppDataGen.run, hn]
      apply ih
      · exact hB
      · show g.max_requests - (g.request_count +
          min g.batch_size (g.max_requests - g.request_count)) ≤ fuel
        omega

/-- C10 (amended): for every configuration with a positive batch size the
generator reaches exhaustion within `max_requests` calls, and every batch it
yields is non-empty; with `batch_size = 0` and budget remaining, `__next__`
instead yields an empty batch and leaves the state unchanged (see the
counterexample), so iteration does not terminate. -/
theorem c10_finite_nonempty (c M B p : Nat) (hB : 1 ≤ B) :
    (RequestAppDataGen.run M (RequestAppDataGen.init c M B p)).2.next = none ∧
    (∀ (g : RequestAppDataGen) (b : RequestAsyncAppData) (g' : RequestAppDataGen),
      g.batch_size = B → g.next = some (b, g') → b.requests ≠ []) := by
  constructor
  · exact RequestAppDataGen.run_exhausts M (RequestAppDataGen.init c M B p) hB
      (by show M - 0 ≤ M; omega)
  · intro g b g' hgB hsome
    have h : ¬ g.request_count ≥ g.max_requests := by
      intro hge
      rw [(RequestAppDataGen.next_none_iff g).2 hge] at hsome
      cases hsome
    have hn := RequestAppDataGen.next_some_eq g h
    rw [hn] at hsome
    injection hsome with hpair
    injection hpair with hbq hg'eq
    have hkge : 1 ≤ min g.batch_size (g.max_requests - g.request_count) :=
      le_min (by omega) (by omega)
    intro hempty
    have hlen : b.requests.length = min g.batch_size (g.max_requests - g.request_count) := by
      rw [← hbq]
      simp
    rw [hempty] at hlen
    simp at hlen
    omega

/-- Result of one network call (`client.get(...)` in `make_request`): a
response bearing an HTTP status, or an `aiohttp.ClientError` transport
failure raised by the call itself, or any other unexpected exception. -/
inductive NetResult
  | response (status : Nat)
  | clientError
  | unknownError
deriving DecidableEq, Repr

/-- Observable effects of one `make_request` attempt, in program order:
the throttle operations `send` (acquire), `recv` (release) and `delay`, the
metrics-counter increments, the network call itself, and the backoff
sleep. -/
inductive Event
  | send
  | incrementRequestsTotal
  | netCall (r : NetResult)
  | recv
  | delay
  | incrementRequestsSuccessfulTotal
  | sleep (seconds : Nat)
deriving DecidableEq, Repr

/-- Exceptions that `asession.py` itself can let escape. -/
inductive PyError
  | unboundLocalError (name : String)
  | attributeError (name : String)
deriving DecidableEq, Repr

/-- How a `make_request` coroutine finishes: the decoded JSON payload of a
successful response, the error dictionary built after exhausting retries, or
an exception escaping to the caller. -/
inductive MakeRequestResult
  | json (status : Nat)
  | errorDict (return_code : Nat)
  | raised (e : PyError)
deriving DecidableEq, Repr

/-- The retry loop of `ASession.make_request` (asession.py lines 96-143),
embedded by recursion on `remaining = self._retries - retries`: the loop
guard `retries < self._retries` holds exactly when `remaining > 0`, and each
iteration increments the counter `retries` by one. `script retries` is the
outcome of the network call made on attempt number `retries`. Each attempt
contributes one event list: `send` and the requests-total increment, then
the network call; when the call yields a response, `recv` and `delay` run
inside the response context before `raise_for_status()`, which raises
`aiohttp.ClientResponseError` for statuses >= 400 (caught and logged by the
handlers); when the call itself raises (`ClientError` or any other
exception) the response context is never entered, so `recv` and `delay` do
not run. Every failed attempt ends with `retries += 1` and
`asyncio.sleep(2**retries)`. When the loop exhausts, line 142 evaluates
`e.status`; Python deletes every `except ... as e` binding at the end of its
except clause, so `e` is unbound there and `make_request` raises
`UnboundLocalError` instead of returning the error dictionary of line
143. -/
def ASession.make_request_loop (script : Nat → NetResult) :
    (remaining retries : Nat) → List (List Event) × MakeRequestResult
  | 0, _ => ([], .raised (.unboundLocalError "e"))
  | remaining + 1, retries =>
    match script retries with
    | .response status =>
      if status ≥ 400 then
        let rest := ASession.make_request_loop script remaining (retries + 1)
        ([.send, .incrementRequestsTotal, .netCall (.response status), .recv, .delay,
          .sleep (2 ^ (retries + 1))] :: rest.1, rest.2)
      else
        ([[.send, .incrementRequestsTotal, .netCall (.response status), .recv, .delay,
          .incrementRequestsSuccessfulTotal]], .json status)
    | .clientError =>
      let rest := ASession.make_request_loop script remaining (retries + 1)
      ([.send, .incrementRequestsTotal, .netCall .clientError,
        .sleep (2 ^ (retries + 1))] :: rest.1, rest.2)
    | .unknownError =>
      let rest := ASession.make_request_loop script remaining (retries + 1)
      ([.send, .incrementRequestsTotal, .netCall .unknownError,
        .sleep (2 ^ (retries + 1))] :: rest.1, rest.2)

/-- `ASession.make_request` for one URL/params pair: `retries = 0` before
the loop, bound `self._retries`. Returns the per-attempt event trace and the
final result. (The surrounding `async with concurrency` semaphore only
scopes admission of this single coroutine and adds no events.) -/
def ASession.make_request (script : Nat → NetResult) (self_retries : Nat) :
    List (List Event) × MakeRequestResult :=
  ASession.make_request_loop script self_retries 0

/-- The backoff sleeps of a trace, in order. -/
def sleepsOf (trace : List (List Event)) : List Nat :=
  trace.flatten.filterMap (fun e => match e with | .sleep n => some n | _ => none)

/-- C1: with `retries = 2` and every response HTTP 500, `make_request` makes
exactly 2 attempts and then raises `UnboundLocalError` out of the coroutine
(line 142 reads the deleted `except` binding `e`), instead of returning the
intended `Failure(SERVER, 500)` dictionary. -/
theorem c1_exhausted_retries_raises :
    (ASession.make_request (fun _ => .response 500) 2).1.length = 2 ∧
    (ASession.make_request (fun _ => .response 500) 2).2 =
      .raised (.unboundLocalError "e") := by
  exact ⟨rfl, rfl⟩

/-- C6: with simulated responses 500, 500, 200 and `retries = 3`, the
attempt loop succeeds on the third attempt with backoff sleeps of exactly 2
and 4 time units after the first and second failures, and no other
sleeps. -/
theorem c6_backoff_trace :
    ASession.make_request (fun n => if n < 2 then .response 500 else .response 200) 3 =
      ([[.send, .incrementRequestsTotal, .netCall (.response 500), .recv, .delay, .sleep 2],
        [.send, .incrementRequestsTotal, .netCall (.response 500), .recv, .delay, .sleep 4],
        [.send, .incrementRequestsTotal, .netCall (.response 200), .recv, .delay,
          .incrementRequestsSuccessfulTotal]],
       .json 200) ∧
    sleepsOf (ASession.make_request
      (fun n => if n < 2 then .response 500 else .response 200) 3).1 = [2, 4] ∧
    (ASession.make_request (fun n => if n < 2 then .response 500 else .response 200) 3).1.length
      = 3 := by
  exact ⟨rfl, rfl, rfl⟩

/-- Shape of one attempt of the loop: acquire, requests-total increment and
the network call always happen, in that order; `recv` and `delay` follow the
network call exactly when it produced a response (whatever the status);
attempts whose network call raised go straight to the backoff sleep. -/
def attemptWellFormed (a : List Event) : Prop :=
  (∃ status n, 400 ≤ status ∧
    a = [.send, .incrementRequestsTotal, .netCall (.response status), .recv, .delay,
      .sleep n]) ∨
  (∃ status, status < 400 ∧
    a = [.send, .incrementRequestsTotal, .netCall (.response status), .recv, .delay,
      .incrementRequestsSuccessfulTotal]) ∨
  (∃ e n, (e = NetResult.clientError ∨ e = NetResult.unknownError) ∧
    a = [.send, .incrementRequestsTotal, .netCall e, .sleep n])

/-- Auxiliary: every attempt the loop emits is well formed. -/
theorem make_request_loop_shape (script : Nat → NetResult) :
    ∀ remaining retries a, a ∈ (ASession.make_request_loop script remaining retries).1 →
      attemptWellFormed a := by
  intro remaining
  induction remaining with
  | zero =>
    intro retries a ha
    simp [ASession.make_request_loop] at ha
  | succ remaining ih =>
    intro retries a ha
    unfold ASession.make_request_loop at ha
    cases hs : script retries with
    | response status =>
      rw [hs] at ha
      dsimp only at ha
      by_cases h4 : status ≥ 400
      · rw [if_pos h4] at ha
        rcases List.mem_cons.1 ha with h | h
        · exact Or.inl ⟨status, 2 ^ (retries + 1), h4, h⟩
        · exact ih (retries + 1) a h
      · rw [if_neg h4] at ha
        rcases List.mem_cons.1 ha with h | h
        · exact Or.inr (Or.inl ⟨status, by omega, h⟩)
        · cases h
    | clientError =>
      rw [hs] at ha
      dsimp only at ha
      rcases List.mem_cons.1 ha with h | h
      · exact Or.inr (Or.inr ⟨.clientError, 2 ^ (retries + 1), Or.inl rfl, h⟩)
      · exact ih (retries + 1) a h
    | unknownError =>
      rw [hs] at ha
      dsimp only at ha
      rcases List.mem_cons.1 ha with h | h
      · exact Or.inr (Or.inr ⟨.unknownError, 2 ^ (retries + 1), Or.inr rfl, h⟩)
      · exact ih (retries + 1) a h

/-- C2 (amended): on every attempt of every request, including retries,
`make_request` invokes acquire (`send`) and then the network call; on
attempts whose network call returns a response — success or any non-2xx
status — release (`recv`) and `delay` follow exactly once each, in that
order; an attempt whose network call fails with a transport or unknown
error invokes neither release nor delay and proceeds directly to the
backoff sleep. -/
theorem c2_throttle_order (script : Nat → NetResult) (self_retries : Nat) (a : List Event)
    (ha : a ∈ (ASession.make_request script self_retries).1) :
    attemptWellFormed a :=
  make_request_loop_shape script self_retries 0 a ha

/-- Witness for C2 on the first attempt of an all-500 run. -/
theorem c2_throttle_order_witness :
    attemptWellFormed
      [.send, .incrementRequestsTotal, .netCall (.response 500), .recv, .delay, .sleep 2] :=
  c2_throttle_order (fun _ => .response 500) 2
    [.send, .incrementRequestsTotal, .netCall (.response 500), .recv, .delay, .sleep 2]
    (by decide)

/-- C2 counterexample: an attempt that fails with a transport error
(`aiohttp.ClientError` raised by `client.get` itself) never enters the
response context, so neither release (`recv`) nor `delay` is invoked for
that attempt — not "once per attempt" as claimed. -/
theorem c2_counterexample :
    (ASession.make_request (fun _ => .clientError) 1).1.length = 1 ∧
    Event.recv ∉ (ASession.make_request (fun _ => .clientError) 1).1.flatten ∧
    Event.delay ∉ (ASession.make_request (fun _ => .clientError) 1).1.flatten := by
  decide

/-- Modelled from the spec: the application-layer `AsyncRequest`
(`appstorestream/application/base/response.py`, not under `src/`) as
consumed by `ASessionAppData.get`: a base url, one parameter dictionary per
page request, and a header dictionary. -/
structure AsyncRequest where
  baseurl : String
  param_list : List ParamsDict
  header : HeadersDict
deriving DecidableEq, Repr

/-- Modelled from the spec: `AppDataAsyncResponse`
(`appstorestream/application/appdata/response.py`, not under `src/`); per
the spec's ResponseAggregator contract, `recv(results=...)` stores the
gathered per-request results preserving input order, and `get` then sets
`request_count`. -/
structure AppDataAsyncResponse where
  results : List MakeRequestResult
  request_count : Nat
deriving DecidableEq, Repr

/-- The attributes `ASession.__init__` (asession.py lines 49-64) binds on
the instance. -/
def ASession.instanceAttrs : List String :=
  ["_throttle", "_max_concurrency", "_retries", "_timeout", "_timeout_obj", "_proxy", "_logger"]

/-- The names bound by the class bodies of `ASession` and `ASessionAppData`
(asession.py): the methods a `self.`-lookup on an `ASessionAppData` instance
can resolve besides the instance attributes. -/
def ASessionAppData.classAttrs : List String :=
  ["get", "make_request", "as_dict", "_get_proxy"]

/-- `ASessionAppData.get` (asession.py lines 166-200) as written. The task
list comprehension evaluates `self._make_request` once per element of
`request.param_list`; the name `_make_request` is bound neither in
`ASession.__init__` (`instanceAttrs`) nor by the class bodies
(`classAttrs`) — the method defined at line 77 is `make_request` — so with a
non-empty `param_list` the first lookup raises `AttributeError` and `get`
never builds a response. With an empty `param_list` no lookup happens,
`asyncio.gather()` of no tasks returns `[]`, and the returned response
carries zero results and `request_count = 0`. -/
def ASessionAppData.get (request : AsyncRequest) : Except PyError AppDataAsyncResponse :=
  match request.param_list with
  | [] => .ok { results := [], request_count := 0 }
  | _ :: _ =>
    if "_make_request" ∈ ASession.instanceAttrs ++ ASessionAppData.classAttrs then
      .ok { results := [], request_count := request.param_list.length }
    else
      .error (.attributeError "_make_request")

/-- Modelled from the spec: `get` with the method-name slip corrected to the
`make_request` defined at line 77 (the docstrings and the call signature
make that intent clear), gathering one result per parameter dictionary in
input order (the `asyncio.gather` ordering contract) and recording
`request_count = len(tasks)`. `script p` gives the simulated network
outcomes for the page request with parameters `p`. -/
def ASessionAppData.get_intended (script : ParamsDict → Nat → NetResult) (self_retries : Nat)
    (request : AsyncRequest) : AppDataAsyncResponse :=
  { results := request.param_list.map
      (fun p => (ASession.make_request (script p) self_retries).2)
    request_count := request.param_list.length }

/-- C7: evaluating `get` on a batch with one parameter dictionary raises
`AttributeError` for `_make_request` (the method is named `make_request`),
so `get` never returns the index-aligned result the claim describes. -/
theorem c7_get_attribute_error :
    ASessionAppData.get
      { baseurl := "https://itunes.apple.com/search?",
        param_list := [[("media", PVal.s "software")]],
        header := [] } = .error (.attributeError "_make_request") := by
  rfl

/-- Supporting theorem for C7: the intended aggregation is index-aligned —
one outcome per request, in input order, with `request_count` equal to the
number of requests. -/
theorem get_intended_alignment (script : ParamsDict → Nat → NetResult) (self_retries : Nat)
    (request : AsyncRequest) :
    (ASessionAppData.get_intended script self_retries request).results.length =
      request.param_list.length ∧
    (ASessionAppData.get_intended script self_retries request).request_count =
      request.param_list.length ∧
    ∀ i, (ASessionAppData.get_intended script self_retries request).results.get? i =
      (request.param_list.get? i).map
        (fun p => (ASession.make_request (script p) self_retries).2) := by
  refine ⟨by simp [ASessionAppData.get_intended], rfl, ?_⟩
  intro i
  simp [ASessionAppData.get_intended]

/-- C9 counterexample: on a request whose (spec-modelled, rotating) header
iterator holds two distinct header dictionaries, two successive evaluations
of the `headers` accessor return different values, and the first evaluation
does not leave the request unchanged. -/
theorem c9_counterexample :
    (RequestAppData.headers
      { genreId := 6018, current_page := 0,
        header_list := { headers := [[("ua", "firefox")], [("ua", "chrome")]], pos := 0 } }).1 ≠
    (RequestAppData.headers
      (RequestAppData.headers
        { genreId := 6018, current_page := 0,
          header_list :=
            { headers := [[("ua", "firefox")], [("ua", "chrome")]], pos := 0 } }).2).1 ∧
    (RequestAppData.headers
      { genreId := 6018, current_page := 0,
        header_list := { headers := [[("ua", "firefox")], [("ua", "chrome")]], pos := 0 } }).2 ≠
      { genreId := 6018, current_page := 0,
        header_list := { headers := [[("ua", "firefox")], [("ua", "chrome")]], pos := 0 } } := by
  decide

/-- C9 (amended): `baseurl` and `params` are pure attribute computations and
are unaffected by evaluating `headers`; the `headers` accessor, however,
advances the header iterator by one position and returns the entry at the
pre-call position, so it mutates the request and successive evaluations
traverse the header list instead of repeating one value. -/
theorem c9_accessor_stability (r : RequestAppData) :
    r.headers.2.header_list.pos = r.header_list.pos + 1 ∧
    r.headers.1 =
      r.header_list.headers.getD (r.header_list.pos % r.header_list.headers.length) [] ∧
    r.headers.2.baseurl = r.baseurl ∧
    r.headers.2.params = r.params := by
  exact ⟨rfl, rfl, rfl, rfl⟩

/-- Witness for C10 at a concrete configuration with positive batch size:
budget 3, batch size 2, exhaustion reached within 3 calls. -/
theorem c10_finite_nonempty_witness :
    (RequestAppDataGen.run 3 (RequestAppDataGen.init 6018 3 2 0)).2.next = none :=
  (c10_finite_nonempty 6018 3 2 0 (by decide)).1
